import Mathlib

/-!
# Verification of the NMEA GGA collection pipeline (simulate_nmea.py)

Shallow embedding of the NMEA GGA sentence parser, the bounded track
accumulation loops and the render-phase guard of `simulate_nmea.py`,
together with proofs of the specified properties.

Numeric fields are embedded as exact rationals (`ℚ`): every decimal
string the program accepts denotes a rational, so float rounding is
abstracted away. Strings are Lean `String`s; the parser works on the
underlying character list.

The structural sentence decode is delegated by the source to the
external `pynmea2` library, whose code is not part of the repository;
it is modelled here from the specification's words (see the doc
comments marked `Modelled from the spec:`).
-/

namespace SimulateNmea

/-- A validated fix record: `time` (wall-clock-of-day string, possibly
empty), `latitude` and `longitude` in signed decimal degrees, `altitude`
in meters. All three coordinates are total fields: by construction a
`Fix` can never be partial. Mirrors the tuple returned by `parse_nmea`
(src/simulate_nmea.py line 59). -/
structure Fix where
  time : String
  latitude : ℚ
  longitude : ℚ
  altitude : ℚ
deriving DecidableEq, Repr

/-- Modelled from the spec: the generic positioning-sentence structure
produced by the structural parse step (`pynmea2.parse`, missing from the
repository): a 2-character talker id, a 3-character sentence type, and
the comma-delimited data fields. -/
structure Sentence where
  talker : List Char
  stype : List Char
  fields : List String
deriving DecidableEq, Repr

/-- Hexadecimal digit value of one checksum character (uppercase hex,
as in an NMEA checksum suffix). -/
def hexVal (c : Char) : Option ℕ :=
  if c.isDigit then some (c.toNat - 48)
  else if 'A' ≤ c ∧ c ≤ 'F' then some (c.toNat - 55)
  else none

/-- Value of the two-character checksum suffix, when both are hex digits. -/
def hexPair (a b : Char) : Option ℕ :=
  match hexVal a, hexVal b with
  | some x, some y => some (16 * x + y)
  | _, _ => none

/-- NMEA checksum: XOR of the character codes between `$` and `*`. -/
def xorChecksum (l : List Char) : ℕ :=
  l.foldl (fun a c => Nat.xor a c.toNat) 0

/-- Split a character list at the first `*`: the part before it and,
when a `*` occurs, the part after it. -/
def splitAtStar : List Char → List Char × Option (List Char)
  | [] => ([], none)
  | c :: rest =>
    if c = '*' then ([], some rest)
    else
      let p := splitAtStar rest
      (c :: p.1, p.2)

/-- Split the data part on commas into fields (an empty data part is the
single empty field, as in Python's `"".split(",")`). -/
def splitFieldsAux : List Char → List Char → List String
  | [], acc => [String.mk acc.reverse]
  | c :: rest, acc =>
    if c = ',' then String.mk acc.reverse :: splitFieldsAux rest []
    else splitFieldsAux rest (c :: acc)

def splitFields (l : List Char) : List String :=
  splitFieldsAux l []

/-- Modelled from the spec: checksum validation of the structural parse
step. A sentence with a `*` suffix must carry exactly two hex digits
matching the XOR of the body; a sentence without `*` is tolerated
(the structural parser's observed default). -/
def checksumOK (body : List Char) (cks : Option (List Char)) : Bool :=
  match cks with
  | none => true
  | some [a, b] => hexPair a b == some (xorChecksum body)
  | some _ => false

/-- Modelled from the spec: decode the tag (`TALKER` 2 chars + `TYPE`
3 chars, alphanumeric) followed by a comma and the data fields. -/
def parseBody : List Char → Option Sentence
  | t1 :: t2 :: s1 :: s2 :: s3 :: ',' :: dataCs =>
    if t1.isAlphanum && t2.isAlphanum && s1.isAlphanum && s2.isAlphanum && s3.isAlphanum then
      some ⟨[t1, t2], [s1, s2, s3], splitFields dataCs⟩
    else none
  | _ => none

/-- Modelled from the spec: the structural parse of one raw line
(`pynmea2.parse`, missing from the repository): the line must start
with `$`; the checksum, when present, must match; the tag must be a
5-character alphanumeric talker+type followed by a comma. On any
structural failure the result is `none` (Rejected). -/
def charParse (l : List Char) : Option Sentence :=
  match l with
  | '$' :: rest =>
    if checksumOK (splitAtStar rest).1 (splitAtStar rest).2 then
      parseBody (splitAtStar rest).1
    else none
  | _ => none

def structuralParse (s : String) : Option Sentence :=
  charParse s.toList

/-- The sentence-type filter of `parse_nmea` (src/simulate_nmea.py
line 37): membership in `("GGA", "GNGGA", "GPGGA")`. The decoded type
is the 3-character subtype, so this accepts exactly the GGA family,
independent of the talker id. -/
def isGGAFamily (t : List Char) : Bool :=
  t == "GGA".toList || t == "GNGGA".toList || t == "GPGGA".toList

/-- Value of a digit list read as a decimal natural (only applied to
checked digit characters). -/
def digitsToNat : List Char → ℕ → ℕ
  | [], acc => acc
  | c :: rest, acc => digitsToNat rest (10 * acc + (c.toNat - 48))

/-- Digit decomposition of an unsigned decimal string: integer value,
fraction value and fraction length. Digits, optionally followed by `.`
and fraction digits; at least one digit overall (mirrors Python `float`
on the program's numeric fields). -/
def decParts (l : List Char) : Option (ℕ × ℕ × ℕ) :=
  let intDigits := l.takeWhile Char.isDigit
  let rest := l.dropWhile Char.isDigit
  match rest with
  | [] =>
    if intDigits = [] then none
    else some (digitsToNat intDigits 0, 0, 0)
  | '.' :: fracCs =>
    if fracCs.all Char.isDigit ∧ (intDigits ≠ [] ∨ fracCs ≠ []) then
      some (digitsToNat intDigits 0, digitsToNat fracCs 0, fracCs.length)
    else none
  | _ => none

/-- Rational value of a decimal digit decomposition. -/
def decValue (p : ℕ × ℕ × ℕ) : ℚ :=
  (p.1 : ℚ) + (p.2.1 : ℚ) / (10 : ℚ) ^ p.2.2

/-- Unsigned decimal number as an exact rational. -/
def parseUnsignedDec (l : List Char) : Option ℚ :=
  (decParts l).map decValue

/-- Signed decimal number (used for the altitude field). -/
def parseDec (s : String) : Option ℚ :=
  match s.toList with
  | '-' :: rest => (parseUnsignedDec rest).map (fun q => -q)
  | l => parseUnsignedDec l

/-- Digit decomposition of a `ddmm.mmmm` latitude/longitude field:
whole degrees, whole minutes, minute-fraction value and length. The
digits before the last two integer digits are whole degrees, the last
two plus the fraction are minutes. -/
def ddmmParts (l : List Char) : Option (ℕ × ℕ × ℕ × ℕ) :=
  let intDigits := l.takeWhile Char.isDigit
  let rest := l.dropWhile Char.isDigit
  match rest with
  | '.' :: fracCs =>
    if 3 ≤ intDigits.length ∧ fracCs ≠ [] ∧ fracCs.all Char.isDigit then
      some (digitsToNat (intDigits.take (intDigits.length - 2)) 0,
        digitsToNat (intDigits.drop (intDigits.length - 2)) 0,
        digitsToNat fracCs 0, fracCs.length)
    else none
  | _ => none

/-- Decimal degrees of a degrees/minutes decomposition: degrees plus
minutes divided by 60. -/
def ddmmValue (p : ℕ × ℕ × ℕ × ℕ) : ℚ :=
  (p.1 : ℚ) + ((p.2.1 : ℚ) + (p.2.2.1 : ℚ) / (10 : ℚ) ^ p.2.2.2) / 60

/-- Modelled from the spec: the upstream `ddmm.mmmm` → signed decimal
degrees decode of a latitude/longitude field (the library's
degrees-plus-minutes conversion). -/
def parseDDMM (s : String) : Option ℚ :=
  (ddmmParts s.toList).map ddmmValue

/-- Apply the hemisphere sign: the southern/western direction letter
negates the magnitude. -/
def signedCoord (v : Option ℚ) (dir neg : String) : Option ℚ :=
  v.map (fun q => if dir = neg then -q else q)

/-- Decoded latitude of a GGA field list (fields 1 and 2). -/
def latOf (fields : List String) : Option ℚ :=
  signedCoord (parseDDMM (fields.getD 1 "")) (fields.getD 2 "") "S"

/-- Decoded longitude of a GGA field list (fields 3 and 4). -/
def lonOf (fields : List String) : Option ℚ :=
  signedCoord (parseDDMM (fields.getD 3 "")) (fields.getD 4 "") "W"

/-- Decoded altitude of a GGA field list (field 8); a blank or
non-numeric field yields `none`. -/
def altOf (fields : List String) : Option ℚ :=
  parseDec (fields.getD 8 "")

/-- Hours/minutes/seconds of an `HHMMSS[...]` time-of-day field. -/
def parseHMS (s : String) : Option (ℕ × ℕ × ℕ) :=
  match s.toList with
  | h1 :: h2 :: m1 :: m2 :: s1 :: s2 :: _ =>
    if h1.isDigit && h2.isDigit && m1.isDigit && m2.isDigit && s1.isDigit && s2.isDigit then
      some (digitsToNat [h1, h2] 0, digitsToNat [m1, m2] 0, digitsToNat [s1, s2] 0)
    else none
  | _ => none

/-- Two-digit zero-padded decimal rendering (for values below 100). -/
def pad2 (n : ℕ) : String :=
  String.mk [Char.ofNat (48 + n / 10 % 10), Char.ofNat (48 + n % 10)]

/-- The time string of `parse_nmea` (src/simulate_nmea.py lines 39–46):
an absent time field gives the empty string; a present time-of-day is
rendered zero-padded `HH:MM:SS`; an undecodable present field falls
back to the raw text (the source's `str(ts)` fallback). -/
def timeFieldString (s : String) : String :=
  if s = "" then ""
  else
    match parseHMS s with
    | some (h, m, sec) => pad2 h ++ ":" ++ pad2 m ++ ":" ++ pad2 sec
    | none => s

/-- The GGA field extraction of `parse_nmea` (src/simulate_nmea.py
lines 39–59): each of latitude/longitude/altitude must decode, else
the sentence is rejected; the time field is tolerated absent. -/
def ggaExtract (fields : List String) : Option Fix :=
  match latOf fields, lonOf fields, altOf fields with
  | some la, some lo, some al =>
    some ⟨timeFieldString (fields.getD 0 ""), la, lo, al⟩
  | _, _, _ => none

/-- `parse_nmea` (src/simulate_nmea.py lines 29–61): structural parse,
then the GGA-family type filter, then field extraction. `none` is the
Rejected outcome. -/
def parse_nmea (line : String) : Option Fix :=
  match structuralParse line with
  | some snt => if isGGAFamily snt.stype then ggaExtract snt.fields else none
  | none => none

/-! ## Track accumulation and the collection sessions -/

/-- The four parallel storage lists of the program
(src/simulate_nmea.py lines 24–27), created empty at session start. -/
structure TrackState where
  time_data : List String
  lat_data : List ℚ
  lon_data : List ℚ
  alt_data : List ℚ
deriving DecidableEq, Repr

def emptyTrack : TrackState := ⟨[], [], [], []⟩

/-- Appending one accepted fix appends exactly one element to each of
the four lists (src/simulate_nmea.py lines 85–88 and 114–117). -/
def appendFix (st : TrackState) (f : Fix) : TrackState :=
  ⟨st.time_data ++ [f.time], st.lat_data ++ [f.latitude],
   st.lon_data ++ [f.longitude], st.alt_data ++ [f.altitude]⟩

/-- The track whose four lists are the componentwise projections of a
fix list; the parallel-lists invariant says every reachable state has
this shape. -/
def trackOfFixes (fixes : List Fix) : TrackState :=
  ⟨fixes.map Fix.time, fixes.map Fix.latitude,
   fixes.map Fix.longitude, fixes.map Fix.altitude⟩

/-- One iteration of the live read loop (src/simulate_nmea.py
lines 78–88): the loop runs only while the track is below the cap;
a blank (stripped) line is skipped; a parsed fix is appended; a
rejected line leaves the track unchanged. -/
def serialStep (max_points : ℕ) (st : TrackState) (raw : String) : TrackState :=
  if st.lat_data.length < max_points then
    if raw = "" then st
    else
      match parse_nmea raw with
      | some f => appendFix st f
      | none => st
  else st

/-- Outcome of a collection session: the final track and whether an
error was reported to the user. -/
structure SessionResult where
  track : TrackState
  reportedError : Bool
deriving DecidableEq, Repr

/-- `collect_from_serial` (src/simulate_nmea.py lines 64–97) over an
explicit finite sequence of raw lines. The `acquired` flag abstracts
the external channel open (`serial.Serial`, lines 69–73): on
acquisition failure the function reports the error and returns with
the track untouched (empty at session start). -/
def collect_from_serial (acquired : Bool) (lines : List String)
    (max_points : ℕ) : SessionResult :=
  if acquired then ⟨lines.foldl (serialStep max_points) emptyTrack, false⟩
  else ⟨emptyTrack, true⟩

/-- The built-in default cap (src/simulate_nmea.py line 20). -/
def MAX_POINTS : ℕ := 300

def testLine1 : String :=
  "$GPGGA,123519,4807.038,N,01131.000,E,1,08,0.9,545.4,M,46.9,M,,*47"
def testLine2 : String :=
  "$GPGGA,123520,4807.123,N,01131.321,E,1,08,0.9,550.0,M,46.9,M,,*48"
def testLine3 : String :=
  "$GPGGA,123521,4807.210,N,01131.600,E,1,08,0.9,560.0,M,46.9,M,,*49"
def testLine4 : String :=
  "$GPGGA,123522,4807.350,N,01131.800,E,1,08,0.9,570.0,M,46.9,M,,*50"
def testLine5 : String :=
  "$GPGGA,123523,4807.500,N,01132.050,E,1,08,0.9,580.0,M,46.9,M,,*51"
def testLine6 : String :=
  "$GPGGA,123524,4807.720,N,01132.300,E,1,08,0.9,590.0,M,46.9,M,,*52"

/-- The 6 built-in test sentences (src/simulate_nmea.py lines 102–109). -/
def test_lines : List String :=
  [testLine1, testLine2, testLine3, testLine4, testLine5, testLine6]

/-- The decoded field list of `testLine1`. -/
def fields1 : List String :=
  ["123519", "4807.038", "N", "01131.000", "E", "1", "08", "0.9",
   "545.4", "M", "46.9", "M", "", ""]

/-- `testLine1` with the GN talker id (and the matching checksum). -/
def gnggaLine1 : String :=
  "$GNGGA,123519,4807.038,N,01131.000,E,1,08,0.9,545.4,M,46.9,M,,*59"

/-- A structurally valid RMC sentence (correct checksum, non-GGA type). -/
def rmcLine : String :=
  "$GPRMC,123519,A,4807.038,N,01131.000,E,022.4,084.4,230394,003.1,W*6A"

/-- A valid-checksum GGA sentence whose altitude field is blank. -/
def blankAltLine : String :=
  "$GPGGA,123519,4807.038,N,01131.000,E,1,08,0.9,,M,46.9,M,,*69"

/-- A valid-checksum GGA sentence whose time field is absent. -/
def noTimeLine : String :=
  "$GPGGA,,4807.038,N,01131.000,E,1,08,0.9,545.4,M,46.9,M,,*4A"

/-- A valid-checksum GGA sentence whose time of day needs zero padding. -/
def padTimeLine : String :=
  "$GPGGA,050301,4807.038,N,01131.000,E,1,08,0.9,545.4,M,46.9,M,,*4D"

/-- One iteration of the fixture loop (src/simulate_nmea.py
lines 110–117): parsed fixes are appended, rejections skipped; the
fixture loop has no cap check. -/
def testStep (st : TrackState) (line : String) : TrackState :=
  match parse_nmea line with
  | some f => appendFix st f
  | none => st

/-- `collect_from_testlines` (src/simulate_nmea.py lines 100–117). -/
def collect_from_testlines : TrackState :=
  test_lines.foldl testStep emptyTrack

/-- Outcome of the render phase. -/
inductive RenderResult
  | nothingToRender
  | rendered
deriving DecidableEq, Repr

/-- The empty-track guard of `plot_3d` (src/simulate_nmea.py
lines 121–124): an empty track short-circuits with a notice instead of
plotting. -/
def plot_3d (st : TrackState) : RenderResult :=
  if st.lat_data.isEmpty then RenderResult.nothingToRender
  else RenderResult.rendered

/-! ## Helper lemmas -/

theorem parse_of_structural {line : String} {snt : Sentence}
    (h : structuralParse line = some snt) :
    parse_nmea line = if isGGAFamily snt.stype then ggaExtract snt.fields else none := by
  simp [parse_nmea, h]

theorem splitAtStar_append (body rest : List Char) (h : '*' ∉ body) :
    splitAtStar (body ++ '*' :: rest) = (body, some rest) := by
  induction body with
  | nil => simp [splitAtStar]
  | cons c cs ih =>
    have hc : ¬ c = '*' := fun he => h (he ▸ List.mem_cons_self c cs)
    have hcs : '*' ∉ cs := fun hm => h (List.mem_cons_of_mem c hm)
    simp [splitAtStar, hc, ih hcs]

theorem appendFix_trackOfFixes (l : List Fix) (f : Fix) :
    appendFix (trackOfFixes l) f = trackOfFixes (l ++ [f]) := by
  simp [appendFix, trackOfFixes]

theorem serialStep_length_le {mp : ℕ} {st : TrackState} (line : String)
    (h : st.lat_data.length ≤ mp) :
    (serialStep mp st line).lat_data.length ≤ mp := by
  by_cases hlt : st.lat_data.length < mp
  · by_cases hb : line = ""
    · simp [serialStep, hlt, hb, h]
    · cases hp : parse_nmea line with
      | none => simp [serialStep, hlt, hb, hp, h]
      | some f =>
        simp [serialStep, hlt, hb, hp, appendFix]
        omega
  · simp [serialStep, hlt, h]

theorem foldl_serialStep_le (mp : ℕ) :
    ∀ (lines : List String) (st : TrackState), st.lat_data.length ≤ mp →
      (lines.foldl (serialStep mp) st).lat_data.length ≤ mp
  | [], _, h => h
  | l :: ls, st, h => foldl_serialStep_le mp ls (serialStep mp st l) (serialStep_length_le l h)

theorem serialStep_shape (mp : ℕ) (l : List Fix) (line : String) :
    ∃ l2, serialStep mp (trackOfFixes l) line = trackOfFixes l2 := by
  by_cases hlt : (trackOfFixes l).lat_data.length < mp
  · by_cases hb : line = ""
    · exact ⟨l, by simp [serialStep, hlt, hb]⟩
    · cases hp : parse_nmea line with
      | none => exact ⟨l, by simp [serialStep, hlt, hb, hp]⟩
      | some f =>
        exact ⟨l ++ [f], by simp [serialStep, hlt, hb, hp, appendFix_trackOfFixes]⟩
  · exact ⟨l, by simp [serialStep, hlt]⟩

theorem testStep_shape (l : List Fix) (line : String) :
    ∃ l2, testStep (trackOfFixes l) line = trackOfFixes l2 := by
  cases hp : parse_nmea line with
  | none => exact ⟨l, by simp [testStep, hp]⟩
  | some f => exact ⟨l ++ [f], by simp [testStep, hp, appendFix_trackOfFixes]⟩

theorem foldl_shape (g : TrackState → String → TrackState)
    (hg : ∀ (l : List Fix) (line : String), ∃ l2, g (trackOfFixes l) line = trackOfFixes l2) :
    ∀ (lines : List String) (l : List Fix),
      ∃ l2, lines.foldl g (trackOfFixes l) = trackOfFixes l2
  | [], l => ⟨l, rfl⟩
  | line :: ls, l => by
    obtain ⟨l2, h2⟩ := hg l line
    obtain ⟨l3, h3⟩ := foldl_shape g hg ls l2
    exact ⟨l3, by simp [List.foldl_cons, h2, h3]⟩

theorem emptyTrack_shape : emptyTrack = trackOfFixes [] := rfl

theorem testStep_none {st : TrackState} {line : String}
    (h : parse_nmea line = none) : testStep st line = st := by
  simp [testStep, h]

/-- Evaluation of the standard coordinate fields shared by the concrete
witness sentences: any structurally decoded GGA sentence whose fields
are `fields1` with the time field replaced by `t` parses to the decoded
fix, with the coordinate values in their digit-decomposition form. -/
theorem ggaExtract_std (t : String) :
    ggaExtract [t, "4807.038", "N", "01131.000", "E", "1", "08", "0.9",
      "545.4", "M", "46.9", "M", "", ""] = some ⟨timeFieldString t,
      ddmmValue (48, 7, 38, 3), ddmmValue (11, 31, 0, 3), decValue (545, 4, 1)⟩ := by
  have hla : latOf [t, "4807.038", "N", "01131.000", "E", "1", "08", "0.9",
      "545.4", "M", "46.9", "M", "", ""] = some (ddmmValue (48, 7, 38, 3)) := by
    show signedCoord (parseDDMM "4807.038") "N" "S" = _
    simp [parseDDMM, signedCoord]
    exact ⟨48, 7, 38, 3, by decide, rfl⟩
  have hlo : lonOf [t, "4807.038", "N", "01131.000", "E", "1", "08", "0.9",
      "545.4", "M", "46.9", "M", "", ""] = some (ddmmValue (11, 31, 0, 3)) := by
    show signedCoord (parseDDMM "01131.000") "E" "W" = _
    simp [parseDDMM, signedCoord]
    exact ⟨11, 31, 0, 3, by decide, rfl⟩
  have hal : altOf [t, "4807.038", "N", "01131.000", "E", "1", "08", "0.9",
      "545.4", "M", "46.9", "M", "", ""] = some (decValue (545, 4, 1)) := by
    show parseDec "545.4" = _
    show Option.map decValue (decParts "545.4".toList) = _
    simp
    exact ⟨545, 4, 1, by decide, rfl⟩
  unfold ggaExtract
  rw [hla, hlo, hal]
  rfl

theorem parse_gga_std {line : String} {tk : List Char} {t : String}
    (hs : structuralParse line = some ⟨tk, ['G', 'G', 'A'],
      [t, "4807.038", "N", "01131.000", "E", "1", "08", "0.9",
       "545.4", "M", "46.9", "M", "", ""]⟩) :
    parse_nmea line = some ⟨timeFieldString t,
      ddmmValue (48, 7, 38, 3), ddmmValue (11, 31, 0, 3), decValue (545, 4, 1)⟩ := by
  rw [parse_of_structural hs]
  have hga : isGGAFamily ['G', 'G', 'A'] = true := by decide
  simp only [hga, if_true]
  exact ggaExtract_std t

theorem ddmmValue_lat1 : ddmmValue (48, 7, 38, 3) = 481173 / 10000 := by
  norm_num [ddmmValue]

theorem ddmmValue_lon1 : ddmmValue (11, 31, 0, 3) = 691 / 60 := by
  norm_num [ddmmValue]

theorem decValue_alt1 : decValue (545, 4, 1) = 2727 / 5 := by
  norm_num [decValue]

/-! ## Claim theorems -/

/-- C1: For every well-formed GGA sentence whose latitude, longitude and
altitude fields are present and decimal-convertible, `parse_nmea`
returns a Fix whose latitude, longitude, altitude equal the decoded
decimal values; in particular the spot-check sentence decodes to
latitude 481173/10000 (= 48.1173 exactly), longitude 691/60 (within
1/10000 of 11.5167) and altitude 2727/5 (= 545.4 exactly). -/
theorem c1_parse_returns_decoded_values :
    (∀ (line : String) (snt : Sentence) (la lo al : ℚ),
      structuralParse line = some snt →
      isGGAFamily snt.stype = true →
      latOf snt.fields = some la →
      lonOf snt.fields = some lo →
      altOf snt.fields = some al →
      ∃ t, parse_nmea line = some ⟨t, la, lo, al⟩) ∧
    parse_nmea testLine1 = some ⟨"12:35:19", 481173 / 10000, 691 / 60, 2727 / 5⟩ ∧
    |(481173 : ℚ) / 10000 - 481173 / 10000| < 1 / 10000 ∧
    |(691 : ℚ) / 60 - 115167 / 10000| < 1 / 10000 ∧
    (2727 : ℚ) / 5 = 5454 / 10 := by
  refine ⟨?_, ?_, by norm_num, by rw [abs_sub_lt_iff]; constructor <;> norm_num, by norm_num⟩
  · intro line snt la lo al hs hg hla hlo hal
    rw [parse_of_structural hs]
    simp only [hg, if_true]
    unfold ggaExtract
    rw [hla, hlo, hal]
    exact ⟨_, rfl⟩
  · have hp := @parse_gga_std testLine1 ['G', 'P'] "123519" (by decide)
    rw [hp, ddmmValue_lat1, ddmmValue_lon1, decValue_alt1]
    have ht : timeFieldString "123519" = "12:35:19" := by decide
    rw [ht]

/-- Witness for C1 at the spot-check sentence. -/
theorem c1_parse_returns_decoded_values_w :
    ∃ t, parse_nmea testLine1 =
      some ⟨t, ddmmValue (48, 7, 38, 3), ddmmValue (11, 31, 0, 3), decValue (545, 4, 1)⟩ :=
  c1_parse_returns_decoded_values.1 testLine1
    ⟨['G', 'P'], ['G', 'G', 'A'], fields1⟩
    (ddmmValue (48, 7, 38, 3)) (ddmmValue (11, 31, 0, 3)) (decValue (545, 4, 1))
    (by decide) (by decide)
    (by show signedCoord (parseDDMM "4807.038") "N" "S" = _
        simp [parseDDMM, signedCoord]
        exact ⟨48, 7, 38, 3, by decide, rfl⟩)
    (by show signedCoord (parseDDMM "01131.000") "E" "W" = _
        simp [parseDDMM, signedCoord]
        exact ⟨11, 31, 0, 3, by decide, rfl⟩)
    (by show Option.map decValue (decParts "545.4".toList) = _
        simp
        exact ⟨545, 4, 1, by decide, rfl⟩)

/-- C2: For every input string, `parse_nmea` terminates with either a
Fix or Rejected; in the embedding the parser is a total function into
`Option Fix`, so no exception can reach the caller. -/
theorem c2_parse_total (line : String) :
    parse_nmea line = none ∨ ∃ f : Fix, parse_nmea line = some f := by
  cases parse_nmea line with
  | none => exact Or.inl rfl
  | some f => exact Or.inr ⟨f, rfl⟩

/-- C3: Every line that fails the structural parse is Rejected: any
line the structural parser refuses is Rejected by `parse_nmea`; a
sentence whose two-character checksum does not match the XOR of its
body is refused by the structural parser; the empty line and the
bad-checksum built-in line two are Rejected. -/
theorem c3_structural_failure_rejected :
    (∀ line : String, structuralParse line = none → parse_nmea line = none) ∧
    (∀ (body : List Char) (a b : Char),
      '*' ∉ body →
      hexPair a b ≠ some (xorChecksum body) →
      charParse ('$' :: (body ++ '*' :: [a, b])) = none) ∧
    parse_nmea "" = none ∧
    parse_nmea testLine2 = none := by
  refine ⟨?_, ?_, by decide, by decide⟩
  · intro line h
    simp [parse_nmea, h]
  · intro body a b hstar hne
    have hsp : splitAtStar (body ++ '*' :: [a, b]) = (body, some [a, b]) :=
      splitAtStar_append body [a, b] hstar
    simp [charParse, hsp, checksumOK, hne]

/-- Witness for C3: a line with a wrong checksum suffix is Rejected. -/
theorem c3_structural_failure_rejected_w :
    charParse ('$' :: ("GPGGA,1".toList ++ '*' :: ['0', '0'])) = none :=
  c3_structural_failure_rejected.2.1 "GPGGA,1".toList '0' '0' (by decide) (by decide)

/-- C4: The result of `parse_nmea` on a structurally valid sentence
depends only on the 3-character sentence subtype and the data fields —
never on the talker id — and a non-GGA subtype is Rejected; concretely
a valid RMC sentence is Rejected while the GN-talker spelling of the
spot-check sentence parses to the same fix as the GP spelling. -/
theorem c4_gga_family_filter :
    (∀ (line : String) (snt : Sentence),
      structuralParse line = some snt →
      parse_nmea line = if isGGAFamily snt.stype then ggaExtract snt.fields else none) ∧
    (∀ (line : String) (snt : Sentence),
      structuralParse line = some snt →
      isGGAFamily snt.stype = false →
      parse_nmea line = none) ∧
    parse_nmea rmcLine = none ∧
    (∃ f : Fix, parse_nmea gnggaLine1 = some f ∧ parse_nmea testLine1 = some f) := by
  refine ⟨?_, ?_, by decide, ?_⟩
  · intro line snt hs
    exact parse_of_structural hs
  · intro line snt hs hg
    rw [parse_of_structural hs]
    simp [hg]
  · refine ⟨⟨timeFieldString "123519",
      ddmmValue (48, 7, 38, 3), ddmmValue (11, 31, 0, 3), decValue (545, 4, 1)⟩, ?_, ?_⟩
    · exact @parse_gga_std gnggaLine1 ['G', 'N'] "123519" (by decide)
    · exact @parse_gga_std testLine1 ['G', 'P'] "123519" (by decide)

/-- Witness for C4: the RMC sentence is structurally valid but Rejected. -/
theorem c4_gga_family_filter_w : parse_nmea rmcLine = none :=
  c4_gga_family_filter.2.1 rmcLine
    ⟨['G', 'P'], ['R', 'M', 'C'],
     ["123519", "A", "4807.038", "N", "01131.000", "E", "022.4", "084.4",
      "230394", "003.1", "W"]⟩
    (by decide) (by decide)

/-- C5: The track never exceeds the configured cap: every serial
collection session (whether the channel was acquired or not) ends with
at most `max_points` fixes; a loop step at the cap leaves the track
unchanged; and the fixture session respects the configured cap. -/
theorem c5_track_cap :
    (∀ (acq : Bool) (lines : List String) (mp : ℕ),
      (collect_from_serial acq lines mp).track.lat_data.length ≤ mp) ∧
    (∀ (st : TrackState) (line : String) (mp : ℕ),
      st.lat_data.length = mp → serialStep mp st line = st) ∧
    collect_from_testlines.lat_data.length ≤ MAX_POINTS := by
  refine ⟨?_, ?_, by decide⟩
  · intro acq lines mp
    cases acq with
    | false => simp [collect_from_serial, emptyTrack]
    | true =>
      have hc : collect_from_serial true lines mp =
          ⟨lines.foldl (serialStep mp) emptyTrack, false⟩ := rfl
      rw [hc]
      exact foldl_serialStep_le mp lines emptyTrack (by simp [emptyTrack])
  · intro st line mp h
    simp [serialStep, h]

/-- Witness for C5: with the cap at 1 and one fix stored, a further
step leaves the track unchanged. -/
theorem c5_track_cap_w :
    serialStep 1 (appendFix emptyTrack ⟨"", 0, 0, 0⟩) testLine1
      = appendFix emptyTrack ⟨"", 0, 0, 0⟩ :=
  c5_track_cap.2.1 (appendFix emptyTrack ⟨"", 0, 0, 0⟩) testLine1 1 (by decide)

/-- C6: A GGA sentence whose latitude, longitude or altitude is
missing, blank or not decimal-convertible is Rejected; in particular
the blank-altitude sentence is Rejected. (A partial fix is impossible
by construction: every `Fix` carries all three coordinates.) -/
theorem c6_missing_coordinate_rejected :
    (∀ (line : String) (snt : Sentence),
      structuralParse line = some snt →
      (latOf snt.fields = none ∨ lonOf snt.fields = none ∨ altOf snt.fields = none) →
      parse_nmea line = none) ∧
    parse_nmea blankAltLine = none := by
  refine ⟨?_, by decide⟩
  intro line snt hs hnone
  rw [parse_of_structural hs]
  by_cases hg : isGGAFamily snt.stype = true
  · simp only [hg, if_true]
    unfold ggaExtract
    split
    · rcases hnone with h | h | h <;> simp_all
    · rfl
  · simp only [Bool.not_eq_true] at hg
    simp [hg]

/-- Witness for C6 at the blank-altitude sentence. -/
theorem c6_missing_coordinate_rejected_w : parse_nmea blankAltLine = none :=
  c6_missing_coordinate_rejected.1 blankAltLine
    ⟨['G', 'P'], ['G', 'G', 'A'],
     ["123519", "4807.038", "N", "01131.000", "E", "1", "08", "0.9",
      "", "M", "46.9", "M", "", ""]⟩
    (by decide) (Or.inr (Or.inr (by decide)))

/-- C7: The fixture-variant session does NOT produce 6 fixes: only the
first built-in sentence carries a correct checksum (the XOR of the
second sentence's body is 70 = 0x46, but its suffix claims 72 = 0x48),
so sentences 2–6 are rejected and the session ends with a single fix of
altitude 545.4. This contradicts the claimed 6 strictly increasing
altitudes: the fixture data is a code bug. -/
theorem c7_fixture_run_one_point :
    xorChecksum "GPGGA,123520,4807.123,N,01131.321,E,1,08,0.9,550.0,M,46.9,M,,".toList = 70 ∧
    hexPair '4' '8' = some 72 ∧
    parse_nmea testLine2 = none ∧ parse_nmea testLine3 = none ∧
    parse_nmea testLine4 = none ∧ parse_nmea testLine5 = none ∧
    parse_nmea testLine6 = none ∧
    collect_from_testlines.lat_data.length = 1 ∧
    collect_from_testlines.alt_data = [decValue (545, 4, 1)] ∧
    decValue (545, 4, 1) = 2727 / 5 := by
  refine ⟨by decide, by decide, by decide, by decide, by decide, by decide, by decide,
    by decide, ?_, decValue_alt1⟩
  have h1 : parse_nmea testLine1 = some ⟨timeFieldString "123519",
      ddmmValue (48, 7, 38, 3), ddmmValue (11, 31, 0, 3), decValue (545, 4, 1)⟩ :=
    @parse_gga_std testLine1 ['G', 'P'] "123519" (by decide)
  have s1 : testStep emptyTrack testLine1 = trackOfFixes [⟨timeFieldString "123519",
      ddmmValue (48, 7, 38, 3), ddmmValue (11, 31, 0, 3), decValue (545, 4, 1)⟩] := by
    rw [emptyTrack_shape]
    simp [testStep, h1, appendFix_trackOfFixes]
  have e : collect_from_testlines = trackOfFixes [⟨timeFieldString "123519",
      ddmmValue (48, 7, 38, 3), ddmmValue (11, 31, 0, 3), decValue (545, 4, 1)⟩] := by
    show List.foldl testStep emptyTrack test_lines = _
    unfold test_lines
    simp only [List.foldl_cons, List.foldl_nil]
    rw [s1,
      testStep_none (show parse_nmea testLine2 = none from by decide),
      testStep_none (show parse_nmea testLine3 = none from by decide),
      testStep_none (show parse_nmea testLine4 = none from by decide),
      testStep_none (show parse_nmea testLine5 = none from by decide),
      testStep_none (show parse_nmea testLine6 = none from by decide)]
  rw [e]
  rfl

/-- C8: For every accepted GGA sentence, the time field of the fix is
the rendering of field 0 (zero-padded `HH:MM:SS` when a time-of-day is
present, empty when absent), and acceptance never depends on the time
field; concretely the no-time sentence is accepted with an empty time
and the `050301` sentence renders as `05:03:01`. -/
theorem c8_time_field_contract :
    (∀ (fs : List String) (f : Fix), ggaExtract fs = some f →
      f.time = timeFieldString (fs.getD 0 "")) ∧
    (∀ (fs : List String) (f : Fix), ggaExtract fs = some f →
      fs.getD 0 "" = "" → f.time = "") ∧
    (∀ (a b : String) (tl : List String),
      (ggaExtract (a :: tl)).isSome = (ggaExtract (b :: tl)).isSome) ∧
    (∃ f : Fix, parse_nmea noTimeLine = some f ∧ f.time = "") ∧
    (∃ f : Fix, parse_nmea padTimeLine = some f ∧ f.time = "05:03:01") := by
  have h1 : ∀ (fs : List String) (f : Fix), ggaExtract fs = some f →
      f.time = timeFieldString (fs.getD 0 "") := by
    intro fs f h
    unfold ggaExtract at h
    cases hla : latOf fs <;> rw [hla] at h
    · cases h
    · cases hlo : lonOf fs <;> rw [hlo] at h
      · cases h
      · cases hal : altOf fs <;> rw [hal] at h
        · cases h
        · rw [Option.some_inj] at h
          rw [← h]
  refine ⟨h1, ?_, ?_, ?_, ?_⟩
  · intro fs f h he
    rw [h1 fs f h, he]
    rfl
  · intro a b tl
    unfold ggaExtract
    have hla : latOf (a :: tl) = latOf (b :: tl) := rfl
    have hlo : lonOf (a :: tl) = lonOf (b :: tl) := rfl
    have hal : altOf (a :: tl) = altOf (b :: tl) := rfl
    rw [hla, hlo, hal]
    cases latOf (b :: tl) <;> cases lonOf (b :: tl) <;> cases altOf (b :: tl) <;> rfl
  · exact ⟨_, @parse_gga_std noTimeLine ['G', 'P'] "" (by decide), by decide⟩
  · exact ⟨_, @parse_gga_std padTimeLine ['G', 'P'] "050301" (by decide), by decide⟩

/-- Witness for C8: with a blank field 0, the accepted fix's time is
the empty string. -/
theorem c8_time_field_contract_w :
    (⟨timeFieldString "", ddmmValue (48, 7, 38, 3), ddmmValue (11, 31, 0, 3),
      decValue (545, 4, 1)⟩ : Fix).time = "" :=
  c8_time_field_contract.2.1
    ["", "4807.038", "N", "01131.000", "E", "1", "08", "0.9",
     "545.4", "M", "46.9", "M", "", ""]
    ⟨timeFieldString "", ddmmValue (48, 7, 38, 3), ddmmValue (11, 31, 0, 3),
      decValue (545, 4, 1)⟩
    (ggaExtract_std "") rfl

/-- C9: If acquisition of the live channel fails, the session ends with
an empty track and a reported error, and the render phase treats the
empty track as nothing-to-render. -/
theorem c9_acquisition_failure_graceful (lines : List String) (mp : ℕ) :
    (collect_from_serial false lines mp).track.lat_data.length = 0 ∧
    (collect_from_serial false lines mp).reportedError = true ∧
    plot_3d (collect_from_serial false lines mp).track = RenderResult.nothingToRender :=
  ⟨rfl, rfl, rfl⟩

/-- C10: Every reachable track state is the componentwise projection of
one list of accepted fixes, so the four storage lists always have equal
length and their i-th elements together form the i-th accepted fix. -/
theorem c10_parallel_lists :
    (∀ (acq : Bool) (lines : List String) (mp : ℕ),
      ∃ fixes : List Fix, (collect_from_serial acq lines mp).track = trackOfFixes fixes) ∧
    (∃ fixes : List Fix, collect_from_testlines = trackOfFixes fixes) ∧
    (∀ fixes : List Fix,
      (trackOfFixes fixes).time_data.length = fixes.length ∧
      (trackOfFixes fixes).lat_data.length = fixes.length ∧
      (trackOfFixes fixes).lon_data.length = fixes.length ∧
      (trackOfFixes fixes).alt_data.length = fixes.length) ∧
    (∀ (fixes : List Fix) (i : ℕ) (f : Fix), fixes[i]? = some f →
      (trackOfFixes fixes).time_data[i]? = some f.time ∧
      (trackOfFixes fixes).lat_data[i]? = some f.latitude ∧
      (trackOfFixes fixes).lon_data[i]? = some f.longitude ∧
      (trackOfFixes fixes).alt_data[i]? = some f.altitude) := by
  refine ⟨?_, ?_, ?_, ?_⟩
  · intro acq lines mp
    cases acq with
    | false => exact ⟨[], rfl⟩
    | true =>
      have hc : (collect_from_serial true lines mp).track =
          lines.foldl (serialStep mp) emptyTrack := rfl
      rw [hc, emptyTrack_shape]
      exact foldl_shape (serialStep mp) (serialStep_shape mp) lines []
  · have hc : collect_from_testlines = test_lines.foldl testStep emptyTrack := rfl
    rw [hc, emptyTrack_shape]
    exact foldl_shape testStep testStep_shape test_lines []
  · intro fixes
    simp [trackOfFixes]
  · intro fixes i f h
    refine ⟨?_, ?_, ?_, ?_⟩ <;> simp [trackOfFixes, List.getElem?_map, h]

/-- Witness for C10 on a one-fix track. -/
theorem c10_parallel_lists_w :
    (trackOfFixes [⟨"t", 1, 2, 3⟩]).time_data[0]? = some (Fix.time ⟨"t", 1, 2, 3⟩) ∧
    (trackOfFixes [⟨"t", 1, 2, 3⟩]).lat_data[0]? = some (Fix.latitude ⟨"t", 1, 2, 3⟩) ∧
    (trackOfFixes [⟨"t", 1, 2, 3⟩]).lon_data[0]? = some (Fix.longitude ⟨"t", 1, 2, 3⟩) ∧
    (trackOfFixes [⟨"t", 1, 2, 3⟩]).alt_data[0]? = some (Fix.altitude ⟨"t", 1, 2, 3⟩) :=
  c10_parallel_lists.2.2.2 [⟨"t", 1, 2, 3⟩] 0 ⟨"t", 1, 2, 3⟩ rfl

end SimulateNmea
